import Mathlib

/-!
Verification of the JSON command-line validators in this repository.

Each Python script is embedded as a pure function from the loaded JSON
document to the emitted result envelope together with the process exit
status.  The JSON data model, Python truthiness, Python `str()` rendering,
`urllib.parse.urlparse` (restricted to the http/https shapes the scripts
feed it) and `json.dumps(..., indent=2)` are modelled explicitly so that
the embedded scripts mirror the sources line by line.
-/

/-- JSON values as loaded by `json.load`.  Numbers are restricted to
integers, which is the only numeric shape the validators compare
(`isinstance(x, int)` guards every numeric check in the sources). -/
inductive Json where
  | null : Json
  | bool (b : Bool) : Json
  | int (n : Int) : Json
  | str (s : String) : Json
  | arr (xs : List Json) : Json
  | obj (kvs : List (String × Json)) : Json

mutual

/-- Structural equality on JSON values (no deriving handler exists for
the nested recursion through `List`). -/
def beqJson : Json → Json → Bool
  | Json.null, Json.null => true
  | Json.bool a, Json.bool b => a == b
  | Json.int a, Json.int b => a == b
  | Json.str a, Json.str b => a == b
  | Json.arr a, Json.arr b => beqJsonList a b
  | Json.obj a, Json.obj b => beqJsonFields a b
  | _, _ => false

def beqJsonList : List Json → List Json → Bool
  | [], [] => true
  | x :: xs, y :: ys => beqJson x y && beqJsonList xs ys
  | _, _ => false

def beqJsonFields : List (String × Json) → List (String × Json) → Bool
  | [], [] => true
  | (k, v) :: xs, (l, w) :: ys => k == l && beqJson v w && beqJsonFields xs ys
  | _, _ => false

end

/-- Association lookup, first match: a JSON object loaded by `json.load`
has distinct keys, so this is Python `dict` lookup. -/
def lookupField : List (String × Json) → String → Option Json
  | [], _ => none
  | (k, v) :: t, key => if k = key then some v else lookupField t key

/-- `key in data` / `data.get(key)` support: the binding of `key`, if present. -/
def Json.find? : Json → String → Option Json
  | Json.obj kvs, key => lookupField kvs key
  | _, _ => none

/-- Python `data.get(key, default)`. -/
def Json.getD (j : Json) (key : String) (d : Json) : Json :=
  (j.find? key).getD d

/-- Python `data.get(key)`: an absent key yields `None`, which is the same
Python value as JSON `null`, so both are modelled as `Json.null`. -/
def Json.getv (j : Json) (key : String) : Json :=
  j.getD key Json.null

/-- Python `key in data`. -/
def Json.hasKey (j : Json) (key : String) : Bool :=
  (j.find? key).isSome

/-- Python `isinstance(x, dict)`. -/
def Json.isDict : Json → Bool
  | Json.obj _ => true
  | _ => false

/-- Python `isinstance(x, str)`. -/
def Json.isStr : Json → Bool
  | Json.str _ => true
  | _ => false

/-- Python `isinstance(x, list)`. -/
def Json.isList : Json → Bool
  | Json.arr _ => true
  | _ => false

/-- Python `isinstance(x, int)`: in Python `bool` is a subclass of `int`,
so `True` and `False` satisfy this check. -/
def Json.isInstInt : Json → Bool
  | Json.int _ => true
  | Json.bool _ => true
  | _ => false

/-- Python `x is None` for a value obtained with `.get`. -/
def Json.isNull : Json → Bool
  | Json.null => true
  | _ => false

/-- Python truthiness of a JSON-loaded value (`if x:` / `not x`). -/
def truthy : Json → Bool
  | Json.null => false
  | Json.bool b => b
  | Json.int n => !(n = 0)
  | Json.str s => !(s = "")
  | Json.arr xs => !xs.isEmpty
  | Json.obj kvs => !kvs.isEmpty

/-- Insertion into a key-sorted association list (helper for `canon`). -/
def insertByKey (p : String × Json) : List (String × Json) → List (String × Json)
  | [] => [p]
  | q :: t =>
    match compare p.1 q.1 with
    | Ordering.gt => q :: insertByKey p t
    | _ => p :: q :: t

/-- Sort an association list by key (helper for `canon`): Python `dict`
equality ignores insertion order. -/
def sortByKey : List (String × Json) → List (String × Json)
  | [] => []
  | p :: t => insertByKey p (sortByKey t)

mutual

/-- Canonical form under Python `==`: `True == 1` and `False == 0`
(`bool` is an `int` subclass) and `dict` comparison ignores order. -/
def canon : Json → Json
  | Json.null => Json.null
  | Json.bool b => Json.int (if b then 1 else 0)
  | Json.int n => Json.int n
  | Json.str s => Json.str s
  | Json.arr xs => Json.arr (canonList xs)
  | Json.obj kvs => Json.obj (sortByKey (canonFields kvs))

def canonList : List Json → List Json
  | [] => []
  | x :: t => canon x :: canonList t

def canonFields : List (String × Json) → List (String × Json)
  | [] => []
  | (k, v) :: t => (k, canon v) :: canonFields t

end

/-- Python `==` on JSON-loaded values. -/
def pyEq (a b : Json) : Bool :=
  beqJson (canon a) (canon b)

mutual

/-- Python `repr()` of a JSON-loaded value (string escaping inside
`repr` is not modelled; no validator branches on a rendered container). -/
def pyRepr : Json → String
  | Json.null => "None"
  | Json.bool b => if b then "True" else "False"
  | Json.int n => toString n
  | Json.str s => "\x27" ++ s ++ "\x27"
  | Json.arr xs => "[" ++ String.intercalate ", " (pyReprList xs) ++ "]"
  | Json.obj kvs => "\x7b" ++ String.intercalate ", " (pyReprFields kvs) ++ "\x7d"

def pyReprList : List Json → List String
  | [] => []
  | x :: t => pyRepr x :: pyReprList t

def pyReprFields : List (String × Json) → List String
  | [] => []
  | (k, v) :: t => ("\x27" ++ k ++ "\x27: " ++ pyRepr v) :: pyReprFields t

end

/-- Python `str()` of a JSON-loaded value, as used by f-strings and the
explicit `str(...)` casts in the sources. -/
def pyStr : Json → String
  | Json.str s => s
  | j => pyRepr j

/-- Python `str.strip()`: drop leading and trailing whitespace. -/
def pyStrip (s : String) : String :=
  String.mk (((s.toList.dropWhile Char.isWhitespace).reverse.dropWhile
    Char.isWhitespace).reverse)

/-- Python `str.lower()`. -/
def pyLower (s : String) : String :=
  String.mk (s.toList.map Char.toLower)

/-- One structured validation error, as built by the `err` helper that
every script repeats verbatim. -/
structure Err where
  code : String
  message : String
  path : String
  remediation : String
deriving DecidableEq

/-- The `err` builder shared by all seven scripts. -/
def err (code message path remediation : String) : Err :=
  ⟨code, message, path, remediation⟩

/-- The uniform result envelope `\x7bok, tool, errors, warnings, result\x7d`. -/
structure Envelope where
  ok : Bool
  tool : String
  errors : List Err
  warnings : List String
  result : Json

/-! ## A model of `urllib.parse.urlparse`

Only the pieces `validate-redirect-uri.py` reads: `scheme`, `netloc`,
`path` and the derived lowercased `hostname`.  Parameter (`;`) splitting,
queries and fragments beyond their role as delimiters are not consulted
by the script. -/

/-- The components of a parsed URL that the script reads. -/
structure UrlParts where
  scheme : String
  netloc : String
  path : String

/-- Characters allowed in a URL scheme (`scheme_chars` in CPython). -/
def schemeChar (c : Char) : Bool :=
  c.isAlpha || c.isDigit || c = '+' || c = '-' || c = '.'

/-- Split a leading `scheme:` as CPython `urlsplit` does: the text before
the first `:` must start with an ASCII letter and consist of scheme
characters; the scheme is lowercased. -/
def splitScheme (url : List Char) : String × List Char :=
  match url.findIdx? (fun c => c = ':') with
  | some i =>
    if 0 < i && (match url.head? with | some c => c.isAlpha | none => false)
        && (url.take i).all schemeChar then
      (String.mk ((url.take i).map Char.toLower), url.drop (i + 1))
    else ("", url)
  | none => ("", url)

/-- A character that terminates the netloc in CPython `_splitnetloc`. -/
def netlocStop (c : Char) : Bool :=
  c = '/' || c = '?' || c = '#'

/-- Split `//netloc` off the front, if present. -/
def splitNetloc (rest : List Char) : List Char × List Char :=
  match rest with
  | '/' :: '/' :: r => (r.takeWhile (fun c => !netlocStop c), r.dropWhile (fun c => !netlocStop c))
  | _ => ([], rest)

/-- The `hostname` property: strip userinfo (text up to the last `@`),
bracketed IPv6 hosts, and the `:port` suffix; lowercase; empty is `None`. -/
def hostnameOf (netloc : List Char) : Option String :=
  let hostinfo := (netloc.reverse.takeWhile (fun c => c ≠ '@')).reverse
  let host :=
    match hostinfo with
    | '[' :: rest => rest.takeWhile (fun c => c ≠ ']')
    | _ => hostinfo.takeWhile (fun c => c ≠ ':')
  if host.isEmpty then none else some (String.mk (host.map Char.toLower))

/-- `urllib.parse.urlparse`, restricted to the fields the script reads. -/
def urlparse (url : String) : UrlParts :=
  let sr := splitScheme url.toList
  let nr := splitNetloc sr.2
  let path := (nr.2.takeWhile (fun c => c ≠ '#')).takeWhile (fun c => c ≠ '?')
  ⟨sr.1, String.mk nr.1, String.mk path⟩

/-- The lowercased hostname of a parsed URL (`ParseResult.hostname`). -/
def UrlParts.hostname (u : UrlParts) : Option String :=
  hostnameOf u.netloc.toList

/-- Python `needle in hay` on strings, over character lists. -/
def hasSubstr (hay needle : List Char) : Bool :=
  if List.isPrefixOf needle hay then true
  else
    match hay with
    | [] => false
    | _ :: t => hasSubstr t needle

/-! ## A model of `json.dumps(..., indent=2)`

Every script serializes its envelope with `json.dumps(envelope, indent=2)`
and `print`s it; this renders the same text. -/

/-- One lowercase hex digit. -/
def hexDigit (n : Nat) : Char :=
  if n < 10 then Char.ofNat (48 + n) else Char.ofNat (87 + n)

/-- Four hex digits, as in a `\u` escape. -/
def hex4 (n : Nat) : String :=
  String.mk [hexDigit (n / 4096 % 16), hexDigit (n / 256 % 16),
             hexDigit (n / 16 % 16), hexDigit (n % 16)]

/-- Escape one character the way `json.dumps` (with `ensure_ascii`) does. -/
def escChar (c : Char) : String :=
  if c = '"' then "\\\""
  else if c = '\\' then "\\\\"
  else if c = '\n' then "\\n"
  else if c = '\t' then "\\t"
  else if c = '\r' then "\\r"
  else if c = Char.ofNat 8 then "\\b"
  else if c = Char.ofNat 12 then "\\f"
  else if c.toNat < 32 then "\\u" ++ hex4 c.toNat
  else if c.toNat < 127 then String.singleton c
  else if c.toNat < 65536 then "\\u" ++ hex4 c.toNat
  else
    "\\u" ++ hex4 (55296 + (c.toNat - 65536) / 1024)
      ++ "\\u" ++ hex4 (56320 + (c.toNat - 65536) % 1024)

/-- A JSON string literal as `json.dumps` renders it. -/
def jsonQuote (s : String) : String :=
  "\"" ++ String.join (s.toList.map escChar) ++ "\""

/-- `n` spaces. -/
def spaces (n : Nat) : String :=
  String.mk (List.replicate n ' ')

mutual

/-- `json.dumps(v, indent=2)` at nesting depth `d` (in columns). -/
def dumpsAux : Json → Nat → String
  | Json.null, _ => "null"
  | Json.bool b, _ => if b then "true" else "false"
  | Json.int n, _ => toString n
  | Json.str s, _ => jsonQuote s
  | Json.arr [], _ => "[]"
  | Json.arr (x :: xs), d =>
    "[\n" ++ String.intercalate ",\n" (dumpsList (x :: xs) (d + 2)) ++ "\n" ++ spaces d ++ "]"
  | Json.obj [], _ => "\x7b\x7d"
  | Json.obj (kv :: kvs), d =>
    "\x7b\n" ++ String.intercalate ",\n" (dumpsFields (kv :: kvs) (d + 2)) ++ "\n" ++ spaces d ++ "\x7d"

def dumpsList : List Json → Nat → List String
  | [], _ => []
  | x :: t, d => (spaces d ++ dumpsAux x d) :: dumpsList t d

def dumpsFields : List (String × Json) → Nat → List String
  | [], _ => []
  | (k, v) :: t, d => (spaces d ++ jsonQuote k ++ ": " ++ dumpsAux v d) :: dumpsFields t d

end

/-- `json.dumps(v, indent=2)`. -/
def dumps (v : Json) : String :=
  dumpsAux v 0

/-- The JSON rendering of one structured error (field order as written in
the `err` helper). -/
def Err.toJson (e : Err) : Json :=
  Json.obj [("code", Json.str e.code), ("message", Json.str e.message),
            ("path", Json.str e.path), ("remediation", Json.str e.remediation)]

/-- The JSON rendering of the envelope, with the key order every script
uses in its `print(json.dumps(...))` calls. -/
def Envelope.toJson (e : Envelope) : Json :=
  Json.obj [("ok", Json.bool e.ok), ("tool", Json.str e.tool),
            ("errors", Json.arr (e.errors.map Err.toJson)),
            ("warnings", Json.arr (e.warnings.map Json.str)),
            ("result", e.result)]

/-! ## The seven validators

Each `main` is embedded as a function from the loaded document to the
printed envelope paired with the returned exit status.  Python statements
that reassign a variable inside an `if` (the silent defaulting of invalid
sub-objects to `{}`) become one `let` for the appended error and one for
the new value; `errors.append` under a condition becomes a conditional
singleton concatenated in source order. -/

/-- The shared reporter tail `if errors: print(fail); return 1` /
`print(success); return 0` that closes every script. -/
def emit (tool : String) (warnings : List String) (failResult okResult : Json)
    (errors : List Err) : Envelope × Nat :=
  if errors.isEmpty then (⟨true, tool, [], warnings, okResult⟩, 0)
  else (⟨false, tool, errors, warnings, failResult⟩, 1)

/-- `flutterwave-integration/scripts/validate-verify-response.py`, `main`. -/
def validate_verify_response (data : Json) : Envelope × Nat :=
  let e1 := ["expected_tx_ref", "expected_amount", "verify_payload"].filterMap (fun key =>
    if data.hasKey key then none
    else some (err "MISSING_FIELD" ("Missing required field: " ++ key) key
      ("Provide `" ++ key ++ "` in input JSON.")))
  let payload0 := data.getD "verify_payload" (Json.obj [])
  let e2 := if payload0.isDict then []
    else [err "INVALID_TYPE" "verify_payload must be an object" "verify_payload"
      "Set verify_payload to a JSON object."]
  let payload := if payload0.isDict then payload0 else Json.obj []
  let e3 := ["status", "tx_ref", "amount"].filterMap (fun key =>
    if payload.hasKey key then none
    else some (err "MISSING_FIELD" ("verify_payload missing: " ++ key)
      ("verify_payload." ++ key)
      ("Populate `verify_payload." ++ key ++ "` from verify API response.")))
  let errors := e1 ++ e2 ++ e3
  if pyEq (data.getv "order_status") (Json.str "paid") then
    (⟨true, "validate-verify-response", [], [],
      Json.obj [("action", Json.str "no-op"), ("reason", Json.str "order already paid"),
                ("idempotent", Json.bool true)]⟩, 0)
  else
  let expected_tx_ref := data.getv "expected_tx_ref"
  let expected_amount := data.getv "expected_amount"
  let status := payload.getv "status"
  let tx_ref := payload.getv "tx_ref"
  let amount := payload.getv "amount"
  let e4 := if expected_tx_ref.isStr && tx_ref.isStr && !pyEq tx_ref expected_tx_ref then
      [err "TX_REF_MISMATCH" "verify tx_ref does not match expected tx_ref"
        "verify_payload.tx_ref" "Use stored tx_ref and reject mismatches."]
    else []
  let e5 := if expected_amount.isInstInt && amount.isInstInt && !pyEq amount expected_amount then
      [err "AMOUNT_MISMATCH" "verify amount does not match expected amount"
        "verify_payload.amount" "Compare integer smallest-unit amounts from DB and verify payload."]
    else []
  let errors := errors ++ e4 ++ e5
  if pyEq status (Json.str "success-pending-validation") then
    (⟨true, "validate-verify-response", [], ["await webhook confirmation before fulfillment"],
      Json.obj [("action", Json.str "await-webhook"), ("settled", Json.bool false)]⟩, 0)
  else
  let e6 := if pyEq status (Json.str "successful") then []
    else [err "INVALID_STATUS"
      ("status must be successful for immediate fulfillment, got: " ++ pyStr status)
      "verify_payload.status" "Treat pending/failed statuses as non-settled."]
  let errors := errors ++ e6
  emit "validate-verify-response" [] (Json.obj [("action", Json.str "reject")])
    (Json.obj [("action", Json.str "mark-paid"), ("tx_ref", tx_ref), ("amount", amount),
               ("settled", Json.bool true)]) errors

/-- `paystack-integration/scripts/check-webhook-contract.py`, `main`. -/
def check_webhook_contract (data : Json) : Envelope × Nat :=
  let e1 := if beqJson (data.getv "raw_body_enabled") (Json.bool true) then []
    else [err "RAW_BODY_REQUIRED" "raw_body_enabled must be true for signature verification"
      "raw_body_enabled" "Enable raw body parsing on webhook route before JSON parse."]
  let e2 := if pyEq (data.getv "signature_header_name") (Json.str "x-paystack-signature") then []
    else [err "WRONG_SIGNATURE_HEADER" "signature_header_name must be x-paystack-signature"
      "signature_header_name" "Read signature from `x-paystack-signature` header."]
  let headers0 := data.getv "headers"
  let e3 := if headers0.isDict then []
    else [err "INVALID_HEADERS" "headers must be an object" "headers"
      "Provide request headers object."]
  let headers := if headers0.isDict then headers0 else Json.obj []
  let e4 := if truthy (headers.getv "x-paystack-signature") then []
    else [err "MISSING_SIGNATURE" "Missing x-paystack-signature header"
      "headers.x-paystack-signature" "Require raw body and reject unsigned webhook payloads."]
  let errors := e1 ++ e2 ++ e3 ++ e4
  if pyEq (data.getv "order_status") (Json.str "paid") then
    (⟨true, "check-webhook-contract", [], [],
      Json.obj [("action", Json.str "no-op"), ("reason", Json.str "order already paid"),
                ("idempotent", Json.bool true)]⟩, 0)
  else
  let expected_reference := data.getv "expected_reference"
  let event_reference := data.getv "event_reference"
  let e5 := if truthy expected_reference && truthy event_reference
      && !pyEq expected_reference event_reference then
      [err "REFERENCE_MISMATCH" "Webhook reference does not match expected reference"
        "event_reference" "Lookup order by Paystack reference and reject mismatches."]
    else []
  let expected_amount := data.getv "expected_amount_kobo"
  let event_amount := data.getv "event_amount_kobo"
  let e6 := if expected_amount.isInstInt && event_amount.isInstInt
      && !pyEq expected_amount event_amount then
      [err "AMOUNT_MISMATCH" "Webhook amount does not match expected amount"
        "event_amount_kobo" "Compare smallest-unit integers before fulfillment."]
    else []
  let errors := errors ++ e5 ++ e6
  emit "check-webhook-contract" [] (Json.obj [("action", Json.str "reject")])
    (Json.obj [("action", Json.str "process-webhook"),
               ("signature_header", Json.str "x-paystack-signature")]) errors

/-- `paystack-integration/scripts/validate-payment-contract.py`, `main`. -/
def validate_payment_contract (data : Json) : Envelope × Nat :=
  let warnings : List String := []
  let e1 := ["expected_reference", "expected_amount_kobo", "verify_payload"].filterMap (fun key =>
    if data.hasKey key then none
    else some (err "MISSING_FIELD" ("Missing required field: " ++ key) key
      ("Provide `" ++ key ++ "` in input JSON.")))
  let verify_payload0 := data.getD "verify_payload" (Json.obj [])
  let e2 := if verify_payload0.isDict then []
    else [err "INVALID_TYPE" "verify_payload must be an object" "verify_payload"
      "Set `verify_payload` to a JSON object."]
  let verify_payload := if verify_payload0.isDict then verify_payload0 else Json.obj []
  let e3 := ["status", "reference", "amount"].filterMap (fun key =>
    if verify_payload.hasKey key then none
    else some (err "MISSING_FIELD" ("verify_payload missing: " ++ key)
      ("verify_payload." ++ key)
      ("Populate `verify_payload." ++ key ++ "` from Paystack verify response.")))
  let errors := e1 ++ e2 ++ e3
  if pyEq (data.getv "order_status") (Json.str "paid") then
    (⟨true, "validate-payment-contract", [], warnings,
      Json.obj [("action", Json.str "no-op"), ("reason", Json.str "order already paid"),
                ("idempotent", Json.bool true)]⟩, 0)
  else
  let expected_reference := data.getv "expected_reference"
  let expected_amount := data.getv "expected_amount_kobo"
  let status := verify_payload.getv "status"
  let actual_reference := verify_payload.getv "reference"
  let actual_amount := verify_payload.getv "amount"
  let e4 := if expected_reference.isStr && actual_reference.isStr
      && !pyEq actual_reference expected_reference then
      [err "REFERENCE_MISMATCH" "Verified reference does not match expected reference"
        "verify_payload.reference"
        "Use Paystack returned reference from initialization and verify against DB."]
    else []
  let e5 := if expected_amount.isInstInt && actual_amount.isInstInt
      && !pyEq actual_amount expected_amount then
      [err "AMOUNT_MISMATCH" "Verified amount does not match expected amount"
        "verify_payload.amount" "Store expected amount in kobo and compare exact integer values."]
    else []
  let e6 := if pyEq status (Json.str "success") then []
    else [err "INVALID_STATUS" ("Verified status must be success, got: " ++ pyStr status)
      "verify_payload.status" "Do not fulfill order unless verify status is `success`."]
  let errors := errors ++ e4 ++ e5 ++ e6
  emit "validate-payment-contract" warnings (Json.obj [("action", Json.str "reject")])
    (Json.obj [("action", Json.str "mark-paid"), ("idempotent", Json.bool false),
               ("reference", actual_reference), ("amount_kobo", actual_amount)]) errors

/-- `flutterwave-integration/scripts/check-webhook-signature-mode.py`, `main`.
`VALID_MODES` is inlined as the two membership tests. -/
def check_webhook_signature_mode (data : Json) : Envelope × Nat :=
  let mode := data.getv "signature_mode"
  let e1 := if pyEq mode (Json.str "verif-hash") || pyEq mode (Json.str "hmac-sha256") then []
    else [err "INVALID_SIGNATURE_MODE"
      "signature_mode must be one of [\x27hmac-sha256\x27, \x27verif-hash\x27]"
      "signature_mode" "Set signature mode to `verif-hash` or `hmac-sha256`."]
  let headers0 := data.getv "headers"
  let e2 := if headers0.isDict then []
    else [err "INVALID_HEADERS" "headers must be an object" "headers"
      "Provide webhook request headers object."]
  let headers := if headers0.isDict then headers0 else Json.obj []
  let e3 := if pyEq mode (Json.str "verif-hash") && !truthy (headers.getv "verif-hash") then
      [err "MISSING_VERIF_HASH" "Missing verif-hash header" "headers.verif-hash"
        "Configure FLW_SECRET_HASH and require verif-hash header."]
    else []
  let e4 := if pyEq mode (Json.str "hmac-sha256")
      && !beqJson (data.getv "raw_body_enabled") (Json.bool true) then
      [err "RAW_BODY_REQUIRED" "raw_body_enabled must be true for hmac-sha256 mode"
        "raw_body_enabled" "Enable raw body capture before parsing JSON payload."]
    else []
  let e5 := if pyEq mode (Json.str "hmac-sha256")
      && !truthy (headers.getv "x-flutterwave-signature") then
      [err "MISSING_HMAC_HEADER" "Missing x-flutterwave-signature header"
        "headers.x-flutterwave-signature" "Require x-flutterwave-signature for HMAC mode."]
    else []
  let errors := e1 ++ e2 ++ e3 ++ e4 ++ e5
  emit "check-webhook-signature-mode" [] (Json.obj [("action", Json.str "reject")])
    (Json.obj [("action", Json.str "process-webhook"), ("signature_mode", mode)]) errors

/-- `social-auth-core/scripts/validate-redirect-uri.py`, `main`. -/
def validate_redirect_uri (data : Json) : Envelope × Nat :=
  let backend_base_url := data.getv "backend_base_url"
  let redirect_uri := data.getv "redirect_uri"
  let e1 := if truthy backend_base_url then []
    else [err "MISSING_FIELD" "Missing backend_base_url" "backend_base_url"
      "Provide backend_base_url (e.g., https://api.example.com)."]
  let e2 := if truthy redirect_uri then []
    else [err "MISSING_FIELD" "Missing redirect_uri" "redirect_uri"
      "Provide redirect_uri exactly as configured with provider."]
  let errors := e1 ++ e2
  if !errors.isEmpty then
    (⟨false, "validate-redirect-uri", errors, [], Json.obj []⟩, 1)
  else
  let b := urlparse (pyStr backend_base_url)
  let r := urlparse (pyStr redirect_uri)
  let e3 := if b.scheme = "http" || b.scheme = "https" then []
    else [err "INVALID_URL" "backend_base_url must include http/https scheme"
      "backend_base_url" "Use a fully qualified URL."]
  let e4 := if r.scheme = "http" || r.scheme = "https" then []
    else [err "INVALID_URL" "redirect_uri must include http/https scheme"
      "redirect_uri" "Use a fully qualified callback URL."]
  let is_local := r.hostname = some "localhost" || r.hostname = some "127.0.0.1"
  let e5 := if !(r.scheme = "https" : Bool) && !is_local then
      [err "INSECURE_REDIRECT" "redirect_uri must use https outside localhost"
        "redirect_uri" "Use HTTPS callback URLs in non-local environments."]
    else []
  let e6 := if b.hostname.isSome && r.hostname.isSome && !(b.hostname = r.hostname : Bool) then
      [err "DOMAIN_MISMATCH" "redirect_uri host does not match backend host" "redirect_uri"
        "Point redirect_uri to backend callback domain, not frontend domain."]
    else []
  let e7 := if hasSubstr r.path.toList "/callback".toList then []
    else [err "UNEXPECTED_PATH" "redirect_uri path should include callback endpoint"
      "redirect_uri" "Use a provider callback path such as /auth/\x7bprovider\x7d/callback."]
  let errors := errors ++ e3 ++ e4 ++ e5 ++ e6 ++ e7
  emit "validate-redirect-uri" [] (Json.obj [])
    (Json.obj [("backend_host", match b.hostname with | some h => Json.str h | none => Json.null),
               ("redirect_host", match r.hostname with | some h => Json.str h | none => Json.null),
               ("redirect_path", Json.str r.path),
               ("action", Json.str "redirect-uri-valid")]) errors

/-- The `PROVIDER_REQUIREMENTS` table of
`social-auth-core/scripts/translate-provider-credentials.py`: for each
provider, its `required` credential keys and its `env` name mapping. -/
def PROVIDER_REQUIREMENTS : List (String × (List String × List (String × String))) :=
  [("google", (["client_id", "client_secret"],
     [("client_id", "GOOGLE_CLIENT_ID"), ("client_secret", "GOOGLE_CLIENT_SECRET")])),
   ("github", (["client_id", "client_secret"],
     [("client_id", "GITHUB_CLIENT_ID"), ("client_secret", "GITHUB_CLIENT_SECRET")])),
   ("linkedin", (["client_id", "client_secret"],
     [("client_id", "LINKEDIN_CLIENT_ID"), ("client_secret", "LINKEDIN_CLIENT_SECRET")])),
   ("apple", (["client_id", "team_id", "key_id", "private_key"],
     [("client_id", "APPLE_CLIENT_ID"), ("team_id", "APPLE_TEAM_ID"),
      ("key_id", "APPLE_KEY_ID"), ("private_key", "APPLE_PRIVATE_KEY")])),
   ("twitter", (["client_id", "client_secret"],
     [("client_id", "TWITTER_CLIENT_ID"), ("client_secret", "TWITTER_CLIENT_SECRET")]))]

/-- The `for key in req["required"]` loop of
`translate-provider-credentials.py`: a falsy credential appends a
`MISSING_CREDENTIAL` error, a truthy one is mapped to its environment
variable name, in list order. -/
def credLoop (provider : String) (creds : Json) (env : List (String × String)) :
    List String → List Err × List (String × String)
  | [] => ([], [])
  | key :: rest =>
    let tail := credLoop provider creds env rest
    if truthy (creds.getv key) then
      (tail.1, ((env.lookup key).getD "", pyStr (creds.getv key)) :: tail.2)
    else
      (err "MISSING_CREDENTIAL" ("Missing required credential: " ++ key)
        ("credentials." ++ key)
        ("Provide `" ++ key ++ "` for provider `" ++ provider ++ "`.") :: tail.1, tail.2)

/-- `social-auth-core/scripts/translate-provider-credentials.py`, `main`. -/
def translate_provider_credentials (data : Json) : Envelope × Nat :=
  let provider := pyLower (pyStrip (pyStr (data.getD "provider" (Json.str ""))))
  let creds0 := data.getv "credentials"
  let e1 := if (PROVIDER_REQUIREMENTS.lookup provider).isSome then []
    else [err "UNSUPPORTED_PROVIDER" ("Unsupported provider: " ++ provider) "provider"
      "Use one of: google, github, linkedin, apple, twitter."]
  let e2 := if creds0.isDict then []
    else [err "INVALID_CREDENTIALS" "credentials must be an object" "credentials"
      "Provide provider credentials as a JSON object."]
  let creds := if creds0.isDict then creds0 else Json.obj []
  let errors := e1 ++ e2
  if errors.isEmpty then
    match PROVIDER_REQUIREMENTS.lookup provider with
    | some req =>
      let lr := credLoop provider creds req.2 req.1
      emit "translate-provider-credentials" []
        (Json.obj [("provider", Json.str provider)])
        (Json.obj [("provider", Json.str provider),
                   ("env_mapping", Json.obj (lr.2.map (fun p => (p.1, Json.str p.2))))]) lr.1
    | none =>
      -- Models the uncaught `KeyError` on `PROVIDER_REQUIREMENTS[provider]`.
      -- Unreachable: an empty error list forces the lookup to succeed.
      (⟨false, "translate-provider-credentials",
        [err "KEY_ERROR" "unreachable: unsupported provider rejected above" "provider" ""],
        [], Json.null⟩, 1)
  else
    (⟨false, "translate-provider-credentials", errors, [], Json.obj []⟩, 1)

/-- Required root keys of `validate-output-schema.py`. -/
def REQUIRED_ROOT : List String :=
  ["summary", "artifacts", "next_actions", "machine_json"]

/-- Required `machine_json` keys of `validate-output-schema.py`. -/
def REQUIRED_MACHINE : List String :=
  ["decisions", "risks", "required_inputs", "validation_results"]

/-- The `summary` check of `validate-output-schema.py` (line 38): the
`EMPTY_SUMMARY` error fires only when the value is a string whose
stripped form is empty. -/
def emptySummaryErrs : Json → List Err
  | Json.str s =>
    if pyStrip s = "" then
      [err "EMPTY_SUMMARY" "summary must be non-empty" "summary"
        "Provide a concise summary sentence."]
    else []
  | _ => []

/-- The `validation_results` checks of `validate-output-schema.py`
(lines 46-56): `None` passes, a non-list is one `INVALID_TYPE` error, and
each list item contributes at most one error. -/
def validationResultsErrs : Json → List Err
  | Json.null => []
  | Json.arr items => items.enum.filterMap (fun p =>
    if !p.2.isDict then
      some (err "INVALID_ITEM" "validation_results item must be object"
        ("machine_json.validation_results[" ++ toString p.1 ++ "]")
        "Use object with name and ok fields.")
    else if !p.2.hasKey "name" || !p.2.hasKey "ok" then
      some (err "MISSING_FIELD" "validation_results item requires name and ok"
        ("machine_json.validation_results[" ++ toString p.1 ++ "]")
        "Add `name` and `ok` fields.")
    else none)
  | _ => [err "INVALID_TYPE" "validation_results must be an array"
      "machine_json.validation_results" "Provide array of \x7bname, ok, details?\x7d."]

/-- `social-auth-core/scripts/validate-output-schema.py`, `main`. -/
def validate_output_schema (data : Json) : Envelope × Nat :=
  let e1 := REQUIRED_ROOT.filterMap (fun key =>
    if data.hasKey key then none
    else some (err "MISSING_FIELD" ("Missing root field: " ++ key) key
      ("Add `" ++ key ++ "` to output.")))
  let machine0 := data.getv "machine_json"
  let e2 := if machine0.isDict then []
    else [err "INVALID_TYPE" "machine_json must be an object" "machine_json"
      "Set machine_json to an object."]
  let machine := if machine0.isDict then machine0 else Json.obj []
  let e3 := REQUIRED_MACHINE.filterMap (fun key =>
    if machine.hasKey key then none
    else some (err "MISSING_FIELD" ("machine_json missing: " ++ key)
      ("machine_json." ++ key) ("Add `machine_json." ++ key ++ "` to output.")))
  let e4 := emptySummaryErrs (data.getv "summary")
  let e5 := ["artifacts", "next_actions"].filterMap (fun arr_key =>
    let arrv := data.getv arr_key
    if !arrv.isNull && !arrv.isList then
      some (err "INVALID_TYPE" (arr_key ++ " must be an array") arr_key
        ("Set `" ++ arr_key ++ "` to an array of strings."))
    else none)
  -- `machine` is a dict by construction here, so the guarded
  -- `machine.get("validation_results") if isinstance(machine, dict) else None`
  -- is always its `.get`.
  let results := machine.getv "validation_results"
  let e6 := validationResultsErrs results
  let errors := e1 ++ e2 ++ e3 ++ e4 ++ e5 ++ e6
  emit "validate-output-schema" [] (Json.obj [("action", Json.str "fix-output")])
    (Json.obj [("action", Json.str "schema-valid")]) errors

/-- The seven command-line validators of the repository. -/
inductive Validator where
  | verifyResponse
  | webhookContract
  | paymentContract
  | signatureMode
  | redirectUri
  | providerCredentials
  | outputSchema

/-- Run a validator on a loaded JSON document. -/
def run : Validator → Json → Envelope × Nat
  | Validator.verifyResponse, d => validate_verify_response d
  | Validator.webhookContract, d => check_webhook_contract d
  | Validator.paymentContract, d => validate_payment_contract d
  | Validator.signatureMode, d => check_webhook_signature_mode d
  | Validator.redirectUri, d => validate_redirect_uri d
  | Validator.providerCredentials, d => translate_provider_credentials d
  | Validator.outputSchema, d => validate_output_schema d

/-- The standard-output text a validator prints for a document:
`print(json.dumps(envelope, indent=2))` appends one newline. -/
def stdout_of (v : Validator) (d : Json) : String :=
  dumps (run v d).1.toJson ++ "\n"

/-! ## Theorems -/

/-- The envelope/exit invariant every script maintains at each of its
`print`/`return` sites. -/
def GoodPair (p : Envelope × Nat) : Prop :=
  p.1.ok = p.1.errors.isEmpty ∧ p.2 = (if p.1.ok then 0 else 1)

theorem goodPair_emit (tool : String) (w : List String) (fr orr : Json) (es : List Err) :
    GoodPair (emit tool w fr orr es) := by
  unfold GoodPair emit
  cases h : es.isEmpty <;> simp [h]

theorem goodPair_pure_success (tool : String) (w : List String) (r : Json) :
    GoodPair ((⟨true, tool, [], w, r⟩ : Envelope), 0) := by
  simp [GoodPair, List.isEmpty]

theorem goodPair_ite (c : Prop) [Decidable c] (a b : Envelope × Nat)
    (ha : GoodPair a) (hb : GoodPair b) : GoodPair (if c then a else b) := by
  by_cases h : c <;> simp [h, ha, hb]

theorem goodPair_guard (tool : String) (es : List Err) (rest : Envelope × Nat)
    (hr : GoodPair rest) :
    GoodPair (if !es.isEmpty then ((⟨false, tool, es, [], Json.obj []⟩ : Envelope), 1) else rest) := by
  cases h : es.isEmpty
  · simp [h, GoodPair]
  · simpa [h] using hr

theorem goodPair_guardPos (tool : String) (es : List Err) (rest : Envelope × Nat)
    (hr : GoodPair rest) :
    GoodPair (if es.isEmpty then rest else ((⟨false, tool, es, [], Json.obj []⟩ : Envelope), 1)) := by
  cases h : es.isEmpty
  · simp [h, GoodPair]
  · simpa [h] using hr

theorem goodPair_vvr (d : Json) : GoodPair (validate_verify_response d) := by
  unfold validate_verify_response
  apply goodPair_ite
  · exact goodPair_pure_success _ _ _
  · apply goodPair_ite
    · exact goodPair_pure_success _ _ _
    · apply goodPair_emit

theorem goodPair_cwc (d : Json) : GoodPair (check_webhook_contract d) := by
  unfold check_webhook_contract
  apply goodPair_ite
  · exact goodPair_pure_success _ _ _
  · apply goodPair_emit

theorem goodPair_vpc (d : Json) : GoodPair (validate_payment_contract d) := by
  unfold validate_payment_contract
  apply goodPair_ite
  · exact goodPair_pure_success _ _ _
  · apply goodPair_emit

theorem goodPair_cwsm (d : Json) : GoodPair (check_webhook_signature_mode d) := by
  unfold check_webhook_signature_mode
  apply goodPair_emit

theorem goodPair_vru (d : Json) : GoodPair (validate_redirect_uri d) := by
  unfold validate_redirect_uri
  apply goodPair_guard
  apply goodPair_emit

theorem goodPair_tpc (d : Json) : GoodPair (translate_provider_credentials d) := by
  unfold translate_provider_credentials
  apply goodPair_guardPos
  split
  · apply goodPair_emit
  · exact ⟨rfl, rfl⟩

theorem goodPair_vos (d : Json) : GoodPair (validate_output_schema d) := by
  unfold validate_output_schema
  apply goodPair_emit

theorem run_invariant (v : Validator) (d : Json) : GoodPair (run v d) := by
  cases v
  · exact goodPair_vvr d
  · exact goodPair_cwc d
  · exact goodPair_vpc d
  · exact goodPair_cwsm d
  · exact goodPair_vru d
  · exact goodPair_tpc d
  · exact goodPair_vos d

/-- C4: for every validator and every input, the emitted envelope has
`ok = true` exactly when its `errors` list is empty, and the process exit
status is `0` exactly when `ok` is `true` (and `1` otherwise). -/
theorem c4_ok_iff_no_errors_and_exit (v : Validator) (d : Json) :
    ((run v d).1.ok = true ↔ (run v d).1.errors = [])
    ∧ ((run v d).2 = 0 ↔ (run v d).1.ok = true)
    ∧ ((run v d).1.ok = false → (run v d).2 = 1) := by
  obtain ⟨h1, h2⟩ := run_invariant v d
  refine ⟨?_, ?_, ?_⟩
  · rw [h1, List.isEmpty_iff]
  · rw [h2]; cases hok : (run v d).1.ok <;> simp [hok]
  · intro hok; rw [h2, hok]; simp

/-- C8: every validator is deterministic: its printed standard output and
its exit status are functions of the input document alone.  The embedded
scripts consume nothing but the loaded document, so two runs on the same
input produce byte-identical output text and the same exit status. -/
theorem c8_deterministic (v : Validator) (d1 d2 : Json) (h : d1 = d2) :
    stdout_of v d1 = stdout_of v d2 ∧ (run v d1).2 = (run v d2).2 := by
  subst h
  exact ⟨rfl, rfl⟩

theorem c8_witness :
    stdout_of Validator.outputSchema (Json.obj []) = stdout_of Validator.outputSchema (Json.obj [])
    ∧ (run Validator.outputSchema (Json.obj [])).2 = (run Validator.outputSchema (Json.obj [])).2 :=
  c8_deterministic Validator.outputSchema (Json.obj []) (Json.obj []) rfl

/-- C1: for each of the three payment validators, any input object whose
`order_status` field equals `"paid"` is short-circuited to the idempotent
no-op success envelope (`ok: true`, `result.idempotent: true`), whatever
the rest of the input looks like. -/
theorem c1_paid_idempotent (d : Json) (h : d.find? "order_status" = some (Json.str "paid")) :
    ((validate_verify_response d).1.ok = true
      ∧ (validate_verify_response d).1.result.find? "idempotent" = some (Json.bool true))
    ∧ ((check_webhook_contract d).1.ok = true
      ∧ (check_webhook_contract d).1.result.find? "idempotent" = some (Json.bool true))
    ∧ ((validate_payment_contract d).1.ok = true
      ∧ (validate_payment_contract d).1.result.find? "idempotent" = some (Json.bool true)) := by
  have hg : d.getv "order_status" = Json.str "paid" := by
    simp [Json.getv, Json.getD, h]
  refine ⟨⟨?_, ?_⟩, ⟨?_, ?_⟩, ⟨?_, ?_⟩⟩ <;>
    simp [validate_verify_response, check_webhook_contract, validate_payment_contract,
      hg, pyEq, canon, beqJson, Json.find?, lookupField]

theorem c1_witness :
    ((validate_verify_response (Json.obj [("order_status", Json.str "paid")])).1.ok = true
      ∧ (validate_verify_response (Json.obj [("order_status", Json.str "paid")])).1.result.find?
          "idempotent" = some (Json.bool true))
    ∧ ((check_webhook_contract (Json.obj [("order_status", Json.str "paid")])).1.ok = true
      ∧ (check_webhook_contract (Json.obj [("order_status", Json.str "paid")])).1.result.find?
          "idempotent" = some (Json.bool true))
    ∧ ((validate_payment_contract (Json.obj [("order_status", Json.str "paid")])).1.ok = true
      ∧ (validate_payment_contract (Json.obj [("order_status", Json.str "paid")])).1.result.find?
          "idempotent" = some (Json.bool true)) :=
  c1_paid_idempotent (Json.obj [("order_status", Json.str "paid")]) rfl

/-- The concrete document of the spec example for `validate-redirect-uri`. -/
def c6Input : Json :=
  Json.obj [("backend_base_url", Json.str "https://api.x.com"),
            ("redirect_uri", Json.str "https://api.x.com/auth/google/callback")]

/-- C6: `validate-redirect-uri` on
`backend_base_url="https://api.x.com"`,
`redirect_uri="https://api.x.com/auth/google/callback"` yields `ok: true`
and `result.redirect_path == "/auth/google/callback"`. -/
theorem c6_redirect_example :
    (validate_redirect_uri c6Input).1.ok = true
    ∧ (validate_redirect_uri c6Input).1.result.find? "redirect_path"
      = some (Json.str "/auth/google/callback") :=
  ⟨rfl, rfl⟩

/-! ### Shared lemmas about the reporter tail -/

theorem isEmpty_false_of_any (es : List Err) (p : Err → Bool) (h : es.any p = true) :
    es.isEmpty = false := by
  cases hE : es.isEmpty
  · rfl
  · rw [List.isEmpty_iff.mp hE] at h
    simp at h

theorem emit_fail (tool : String) (w : List String) (fr orr : Json) (es : List Err)
    (hne : es.isEmpty = false) :
    emit tool w fr orr es = ((⟨false, tool, es, w, fr⟩ : Envelope), 1) := by
  simp [emit, hne]

theorem emit_ok (tool : String) (w : List String) (fr orr : Json) :
    emit tool w fr orr [] = ((⟨true, tool, [], w, orr⟩ : Envelope), 0) := by
  simp [emit]

theorem emit_any (tool : String) (w : List String) (fr orr : Json) (es : List Err)
    (p : Err → Bool) (h : es.any p = true) :
    (emit tool w fr orr es).1.errors.any p = true
    ∧ (emit tool w fr orr es).1.ok = false
    ∧ (emit tool w fr orr es).1.result = fr := by
  rw [emit_fail tool w fr orr es (isEmpty_false_of_any es p h)]
  exact ⟨h, rfl, rfl⟩

theorem emit_all (tool : String) (w : List String) (fr orr : Json) (es : List Err)
    (p : Err → Bool) (h : es.all p = true) :
    (emit tool w fr orr es).1.errors.all p = true := by
  unfold emit
  cases hE : es.isEmpty <;> simp [hE, h]

mutual

theorem beqJson_refl : (a : Json) → beqJson a a = true
  | Json.null => rfl
  | Json.bool b => by simp [beqJson]
  | Json.int n => by simp [beqJson]
  | Json.str s => by simp [beqJson]
  | Json.arr xs => by simp [beqJson, beqJsonList_refl xs]
  | Json.obj kvs => by simp [beqJson, beqJsonFields_refl kvs]

theorem beqJsonList_refl : (xs : List Json) → beqJsonList xs xs = true
  | [] => rfl
  | x :: t => by simp [beqJsonList, beqJson_refl x, beqJsonList_refl t]

theorem beqJsonFields_refl : (kvs : List (String × Json)) → beqJsonFields kvs kvs = true
  | [] => rfl
  | (k, v) :: t => by simp [beqJsonFields, beqJson_refl v, beqJsonFields_refl t]

end

theorem pyEq_refl (a : Json) : pyEq a a = true :=
  beqJson_refl (canon a)

theorem getv_of_not_dict (j : Json) (k : String) (h : j.isDict = false) :
    j.getv k = Json.null := by
  cases j <;> simp_all [Json.isDict, Json.getv, Json.getD, Json.find?]

/-! ### C2 -/

/-- The counterexample input for C2: a supported provider with a
non-object `credentials` value. -/
def c2Input : Json :=
  Json.obj [("provider", Json.str "google"), ("credentials", Json.str "oops")]

/-- C2 counterexample: on `provider="google"`, `credentials="oops"` the
claim expects `MISSING_CREDENTIAL` errors for `client_id` and
`client_secret` next to `INVALID_CREDENTIALS`; the script emits only
`INVALID_CREDENTIALS` (it returns before the per-key loop). -/
theorem c2_counterexample :
    (PROVIDER_REQUIREMENTS.lookup "google").isSome = true
    ∧ c2Input.hasKey "credentials" = true
    ∧ (c2Input.getv "credentials").isDict = false
    ∧ (translate_provider_credentials c2Input).1.errors.map Err.code = ["INVALID_CREDENTIALS"]
    ∧ (translate_provider_credentials c2Input).1.errors.any
        (fun e => e.code == "MISSING_CREDENTIAL") = false :=
  ⟨rfl, rfl, rfl, rfl, rfl⟩

/-- C2 (amended): with a supported provider and a present non-object
`credentials` value, the `credentials` value is defaulted to an empty
object but the script then returns immediately: the emitted errors list
is exactly `[INVALID_CREDENTIALS]`, no `MISSING_CREDENTIAL` error is
reported, `ok` is `false` and the exit status is `1`. -/
theorem c2_amended_invalid_credentials (d : Json)
    (hp : (PROVIDER_REQUIREMENTS.lookup
        (pyLower (pyStrip (pyStr (d.getD "provider" (Json.str "")))))).isSome = true)
    (hk : d.hasKey "credentials" = true)
    (hc : (d.getv "credentials").isDict = false) :
    (translate_provider_credentials d).1.errors.map Err.code = ["INVALID_CREDENTIALS"]
    ∧ (translate_provider_credentials d).1.ok = false
    ∧ (translate_provider_credentials d).2 = 1 := by
  unfold translate_provider_credentials
  simp [hp, hc, err]

theorem c2_witness :
    (translate_provider_credentials c2Input).1.errors.map Err.code = ["INVALID_CREDENTIALS"]
    ∧ (translate_provider_credentials c2Input).1.ok = false
    ∧ (translate_provider_credentials c2Input).2 = 1 :=
  c2_amended_invalid_credentials c2Input rfl rfl rfl

/-! ### C3 -/

/-- The counterexample input for C3: mismatching `tx_ref`s under
`status = "success-pending-validation"`. -/
def c3Input : Json :=
  Json.obj [("expected_tx_ref", Json.str "a"), ("expected_amount", Json.int 100),
            ("verify_payload", Json.obj [("status", Json.str "success-pending-validation"),
              ("tx_ref", Json.str "b"), ("amount", Json.int 100)])]

/-- C3 counterexample: `order_status` is not `"paid"` and
`expected_tx_ref="a"` differs from `verify_payload.tx_ref="b"`, yet the
emitted envelope carries no `TX_REF_MISMATCH` error at all: the
`"success-pending-validation"` branch prints an empty error list. -/
theorem c3_counterexample :
    pyEq (c3Input.getv "order_status") (Json.str "paid") = false
    ∧ c3Input.getv "expected_tx_ref" = Json.str "a"
    ∧ (c3Input.getv "verify_payload").getv "tx_ref" = Json.str "b"
    ∧ (validate_verify_response c3Input).1.errors = []
    ∧ (validate_verify_response c3Input).1.errors.any
        (fun e => e.code == "TX_REF_MISMATCH") = false
    ∧ (validate_verify_response c3Input).1.ok = true :=
  ⟨rfl, rfl, rfl, rfl, rfl, rfl⟩

/-- C3 (amended): for `validate-verify-response`, when `order_status` is
not `"paid"` and additionally `verify_payload.status` is not
`"success-pending-validation"`, a string mismatch between
`expected_tx_ref` and `verify_payload.tx_ref` is reported as a
`TX_REF_MISMATCH` error, and an integer mismatch between
`expected_amount` and `verify_payload.amount` as an `AMOUNT_MISMATCH`
error; when the status is `"success-pending-validation"` the recorded
mismatch errors are discarded and the await-webhook success envelope is
emitted instead. -/
theorem c3_amended_mismatch_reported (d p : Json)
    (hvp : d.find? "verify_payload" = some p) (hpd : p.isDict = true)
    (hpaid : pyEq (d.getv "order_status") (Json.str "paid") = false)
    (hspv : pyEq (p.getv "status") (Json.str "success-pending-validation") = false) :
    (∀ a b : String, d.getv "expected_tx_ref" = Json.str a → p.getv "tx_ref" = Json.str b →
      a ≠ b →
      (validate_verify_response d).1.errors.any (fun e => e.code == "TX_REF_MISMATCH") = true
      ∧ (validate_verify_response d).1.ok = false)
    ∧ (∀ m n : Int, d.getv "expected_amount" = Json.int m → p.getv "amount" = Json.int n →
      m ≠ n →
      (validate_verify_response d).1.errors.any (fun e => e.code == "AMOUNT_MISMATCH") = true
      ∧ (validate_verify_response d).1.ok = false) := by
  have hgd : d.getD "verify_payload" (Json.obj []) = p := by
    simp [Json.getD, hvp]
  constructor
  · intro a b hea htb hne
    have hne2 : (b == a) = false := by
      simp only [beq_eq_false_iff_ne, Ne]
      intro h
      exact hne h.symm
    have he4 : pyEq (Json.str b) (Json.str a) = false := by
      simp [pyEq, canon, beqJson, hne2]
    constructor
    · simp only [validate_verify_response, hgd, hpd, hpaid, hspv, hea, htb, he4,
        Json.isStr, eq_self_iff_true, Bool.false_eq_true, if_true, if_false,
        Bool.true_and, Bool.and_true, Bool.not_false, List.append_nil, List.nil_append]
      refine (emit_any _ _ _ _ _ _ ?_).1
      simp [List.any_append, err]
    · simp only [validate_verify_response, hgd, hpd, hpaid, hspv, hea, htb, he4,
        Json.isStr, eq_self_iff_true, Bool.false_eq_true, if_true, if_false,
        Bool.true_and, Bool.and_true, Bool.not_false, List.append_nil, List.nil_append]
      refine (emit_any _ _ _ _ _ (fun e => e.code == "TX_REF_MISMATCH") ?_).2.1
      simp [List.any_append, err]
  · intro m n hem htn hne
    have hne2 : (n == m) = false := by
      simp only [beq_eq_false_iff_ne, Ne]
      intro h
      exact hne h.symm
    have he5 : pyEq (Json.int n) (Json.int m) = false := by
      simp [pyEq, canon, beqJson, hne2]
    constructor
    · simp only [validate_verify_response, hgd, hpd, hpaid, hspv, hem, htn, he5,
        Json.isInstInt, eq_self_iff_true, Bool.false_eq_true, if_true, if_false,
        Bool.true_and, Bool.and_true, Bool.not_false, List.append_nil, List.nil_append]
      refine (emit_any _ _ _ _ _ _ ?_).1
      simp [List.any_append, err]
    · simp only [validate_verify_response, hgd, hpd, hpaid, hspv, hem, htn, he5,
        Json.isInstInt, eq_self_iff_true, Bool.false_eq_true, if_true, if_false,
        Bool.true_and, Bool.and_true, Bool.not_false, List.append_nil, List.nil_append]
      refine (emit_any _ _ _ _ _ (fun e => e.code == "AMOUNT_MISMATCH") ?_).2.1
      simp [List.any_append, err]

/-- The payload of the C3 witness input. -/
def c3WitnessPayload : Json :=
  Json.obj [("status", Json.str "successful"), ("tx_ref", Json.str "b"),
            ("amount", Json.int 200)]

/-- The C3 witness input: mismatching reference and amount under a
status that is not `"success-pending-validation"`. -/
def c3WitnessInput : Json :=
  Json.obj [("expected_tx_ref", Json.str "a"), ("expected_amount", Json.int 100),
            ("verify_payload", c3WitnessPayload)]

theorem c3_witness :
    ((validate_verify_response c3WitnessInput).1.errors.any
        (fun e => e.code == "TX_REF_MISMATCH") = true
      ∧ (validate_verify_response c3WitnessInput).1.ok = false)
    ∧ ((validate_verify_response c3WitnessInput).1.errors.any
        (fun e => e.code == "AMOUNT_MISMATCH") = true
      ∧ (validate_verify_response c3WitnessInput).1.ok = false) :=
  ⟨(c3_amended_mismatch_reported c3WitnessInput c3WitnessPayload rfl rfl rfl rfl).1
      "a" "b" rfl rfl (by decide),
   (c3_amended_mismatch_reported c3WitnessInput c3WitnessPayload rfl rfl rfl rfl).2
      100 200 rfl rfl (by decide)⟩

/-! ### C5 -/

/-- C5: for `validate-payment-contract` with all required fields present,
`order_status` not `"paid"`, and matching reference and amount:
`verify_payload.status = "success"` yields `ok: true` with
`result.action = "mark-paid"`, while `verify_payload.status = "pending"`
yields `ok: false` with an `INVALID_STATUS` error. -/
theorem c5_contract_status (d p : Json)
    (hvp : d.find? "verify_payload" = some p) (hpd : p.isDict = true)
    (h1 : d.hasKey "expected_reference" = true)
    (h2 : d.hasKey "expected_amount_kobo" = true)
    (hs : p.hasKey "status" = true) (hr : p.hasKey "reference" = true)
    (ha : p.hasKey "amount" = true)
    (hpaid : pyEq (d.getv "order_status") (Json.str "paid") = false)
    (href : p.getv "reference" = d.getv "expected_reference")
    (hamt : p.getv "amount" = d.getv "expected_amount_kobo") :
    (p.getv "status" = Json.str "success" →
      (validate_payment_contract d).1.ok = true
      ∧ (validate_payment_contract d).1.result.find? "action" = some (Json.str "mark-paid"))
    ∧ (p.getv "status" = Json.str "pending" →
      (validate_payment_contract d).1.ok = false
      ∧ (validate_payment_contract d).1.errors.any
          (fun e => e.code == "INVALID_STATUS") = true) := by
  have hgd : d.getD "verify_payload" (Json.obj []) = p := by
    simp [Json.getD, hvp]
  have hv : d.hasKey "verify_payload" = true := by
    simp [Json.hasKey, hvp]
  constructor
  · intro hst
    have hsucc : pyEq (Json.str "success") (Json.str "success") = true := pyEq_refl _
    constructor <;>
      simp only [validate_payment_contract, hgd, hpd, hv, h1, h2, hs, hr, ha,
        hpaid, hst, href, hamt, hsucc, pyEq_refl,
        List.filterMap_cons, List.filterMap_nil,
        eq_self_iff_true, Bool.false_eq_true, if_true, if_false,
        Bool.true_and, Bool.and_true, Bool.and_false, Bool.not_true, Bool.not_false,
        List.append_nil, List.nil_append] <;>
      simp [emit, Json.find?, lookupField]
  · intro hst
    have hpend : pyEq (Json.str "pending") (Json.str "success") = false := rfl
    constructor
    · simp only [validate_payment_contract, hgd, hpd, hv, h1, h2, hs, hr, ha,
        hpaid, hst, href, hamt, hpend, pyEq_refl,
        List.filterMap_cons, List.filterMap_nil,
        eq_self_iff_true, Bool.false_eq_true, if_true, if_false,
        Bool.true_and, Bool.and_true, Bool.and_false, Bool.not_true, Bool.not_false,
        List.append_nil, List.nil_append]
      refine (emit_any _ _ _ _ _ (fun e => e.code == "INVALID_STATUS") ?_).2.1
      simp [err]
    · simp only [validate_payment_contract, hgd, hpd, hv, h1, h2, hs, hr, ha,
        hpaid, hst, href, hamt, hpend, pyEq_refl,
        List.filterMap_cons, List.filterMap_nil,
        eq_self_iff_true, Bool.false_eq_true, if_true, if_false,
        Bool.true_and, Bool.and_true, Bool.and_false, Bool.not_true, Bool.not_false,
        List.append_nil, List.nil_append]
      refine (emit_any _ _ _ _ _ _ ?_).1
      simp [err]

/-- The C5 witness input with `status = "success"`. -/
def c5SuccessInput : Json :=
  Json.obj [("expected_reference", Json.str "r1"), ("expected_amount_kobo", Json.int 5000),
            ("verify_payload", Json.obj [("status", Json.str "success"),
              ("reference", Json.str "r1"), ("amount", Json.int 5000)])]

/-- The C5 witness input with `status = "pending"`. -/
def c5PendingInput : Json :=
  Json.obj [("expected_reference", Json.str "r1"), ("expected_amount_kobo", Json.int 5000),
            ("verify_payload", Json.obj [("status", Json.str "pending"),
              ("reference", Json.str "r1"), ("amount", Json.int 5000)])]

theorem c5_witness :
    ((validate_payment_contract c5SuccessInput).1.ok = true
      ∧ (validate_payment_contract c5SuccessInput).1.result.find? "action"
        = some (Json.str "mark-paid"))
    ∧ ((validate_payment_contract c5PendingInput).1.ok = false
      ∧ (validate_payment_contract c5PendingInput).1.errors.any
          (fun e => e.code == "INVALID_STATUS") = true) :=
  ⟨(c5_contract_status c5SuccessInput
      (Json.obj [("status", Json.str "success"), ("reference", Json.str "r1"),
                 ("amount", Json.int 5000)])
      rfl rfl rfl rfl rfl rfl rfl rfl rfl rfl).1 rfl,
   (c5_contract_status c5PendingInput
      (Json.obj [("status", Json.str "pending"), ("reference", Json.str "r1"),
                 ("amount", Json.int 5000)])
      rfl rfl rfl rfl rfl rfl rfl rfl rfl rfl).2 rfl⟩

/-! ### C7 -/

/-- C7: for `check-webhook-signature-mode` with
`signature_mode = "hmac-sha256"`, the envelope has `ok = true` exactly
when `raw_body_enabled` is the boolean `true`, `headers` is an object and
its `x-flutterwave-signature` entry is truthy; when the raw-body
condition fails a `RAW_BODY_REQUIRED` error is emitted, and when the
header condition fails a `MISSING_HMAC_HEADER` error is emitted. -/
theorem c7_hmac_requirements (d : Json)
    (h : d.find? "signature_mode" = some (Json.str "hmac-sha256")) :
    ((check_webhook_signature_mode d).1.ok
      = (beqJson (d.getv "raw_body_enabled") (Json.bool true)
         && (d.getv "headers").isDict
         && truthy ((d.getv "headers").getv "x-flutterwave-signature")))
    ∧ (beqJson (d.getv "raw_body_enabled") (Json.bool true) = false →
        (check_webhook_signature_mode d).1.errors.any
          (fun e => e.code == "RAW_BODY_REQUIRED") = true)
    ∧ (((d.getv "headers").isDict
        && truthy ((d.getv "headers").getv "x-flutterwave-signature")) = false →
        (check_webhook_signature_mode d).1.errors.any
          (fun e => e.code == "MISSING_HMAC_HEADER") = true) := by
  have hm : d.getv "signature_mode" = Json.str "hmac-sha256" := by
    simp [Json.getv, Json.getD, h]
  have hvh : pyEq (Json.str "hmac-sha256") (Json.str "verif-hash") = false := rfl
  have hhh : pyEq (Json.str "hmac-sha256") (Json.str "hmac-sha256") = true := rfl
  have hobjnil : (Json.obj ([] : List (String × Json))).getv "x-flutterwave-signature"
      = Json.null := rfl
  by_cases hdict : (d.getv "headers").isDict = true
  · by_cases hraw : beqJson (d.getv "raw_body_enabled") (Json.bool true) = true
    · by_cases htr : truthy ((d.getv "headers").getv "x-flutterwave-signature") = true
      · refine ⟨?_, ?_, ?_⟩ <;>
          simp [check_webhook_signature_mode, emit, hm, hvh, hhh, hdict, hraw, htr, err]
      · simp only [Bool.not_eq_true] at htr
        refine ⟨?_, ?_, ?_⟩ <;>
          simp [check_webhook_signature_mode, emit, hm, hvh, hhh, hdict, hraw, htr, err]
    · simp only [Bool.not_eq_true] at hraw
      by_cases htr : truthy ((d.getv "headers").getv "x-flutterwave-signature") = true
      · refine ⟨?_, ?_, ?_⟩ <;>
          simp [check_webhook_signature_mode, emit, hm, hvh, hhh, hdict, hraw, htr, err]
      · simp only [Bool.not_eq_true] at htr
        refine ⟨?_, ?_, ?_⟩ <;>
          simp [check_webhook_signature_mode, emit, hm, hvh, hhh, hdict, hraw, htr, err]
  · simp only [Bool.not_eq_true] at hdict
    have hnull : (d.getv "headers").getv "x-flutterwave-signature" = Json.null :=
      getv_of_not_dict _ _ hdict
    by_cases hraw : beqJson (d.getv "raw_body_enabled") (Json.bool true) = true
    · refine ⟨?_, ?_, ?_⟩ <;>
        simp [check_webhook_signature_mode, emit, hm, hvh, hhh, hdict, hraw, hnull,
          hobjnil, truthy, err]
    · simp only [Bool.not_eq_true] at hraw
      refine ⟨?_, ?_, ?_⟩ <;>
        simp [check_webhook_signature_mode, emit, hm, hvh, hhh, hdict, hraw, hnull,
          hobjnil, truthy, err]

/-- The C7 witness input: hmac mode with a missing signature header. -/
def c7Input : Json :=
  Json.obj [("signature_mode", Json.str "hmac-sha256"), ("raw_body_enabled", Json.bool true),
            ("headers", Json.obj [("content-type", Json.str "application/json")])]

theorem c7_witness :
    ((check_webhook_signature_mode c7Input).1.ok
      = (beqJson (c7Input.getv "raw_body_enabled") (Json.bool true)
         && (c7Input.getv "headers").isDict
         && truthy ((c7Input.getv "headers").getv "x-flutterwave-signature")))
    ∧ (beqJson (c7Input.getv "raw_body_enabled") (Json.bool true) = false →
        (check_webhook_signature_mode c7Input).1.errors.any
          (fun e => e.code == "RAW_BODY_REQUIRED") = true)
    ∧ (((c7Input.getv "headers").isDict
        && truthy ((c7Input.getv "headers").getv "x-flutterwave-signature")) = false →
        (check_webhook_signature_mode c7Input).1.errors.any
          (fun e => e.code == "MISSING_HMAC_HEADER") = true) :=
  c7_hmac_requirements c7Input rfl

/-! ### C9 -/

theorem credLoop_missing (provider : String) (creds : Json) (env : List (String × String))
    (required : List String) (key : String) (hkey : key ∈ required)
    (hfalsy : truthy (creds.getv key) = false) :
    (credLoop provider creds env required).1.any
      (fun e => e.code == "MISSING_CREDENTIAL" && e.path == "credentials." ++ key) = true := by
  induction required with
  | nil => cases hkey
  | cons a rest ih =>
    rcases List.mem_cons.mp hkey with hak | hk2
    · subst hak
      simp [credLoop, hfalsy, err]
    · by_cases ht : truthy (creds.getv a) = true
      · simp [credLoop, ht, ih hk2]
      · simp only [Bool.not_eq_true] at ht
        simp [credLoop, ht, ih hk2, err]

/-- C9: for `translate-provider-credentials` with a supported provider
and an object `credentials`, a required credential key bound to a falsy
value is treated like an absent key: a `MISSING_CREDENTIAL` error with
path `credentials.<key>` is emitted, the failure envelope carries no
`env_mapping` at all, and `ok` is `false`. -/
theorem c9_falsy_credential (d : Json) (req : List String × List (String × String))
    (key : String)
    (hp : PROVIDER_REQUIREMENTS.lookup
        (pyLower (pyStrip (pyStr (d.getD "provider" (Json.str ""))))) = some req)
    (hd : (d.getv "credentials").isDict = true)
    (hkey : key ∈ req.1)
    (hpres : ((d.getv "credentials").find? key).isSome = true)
    (hfalsy : truthy ((d.getv "credentials").getv key) = false) :
    (translate_provider_credentials d).1.errors.any
      (fun e => e.code == "MISSING_CREDENTIAL" && e.path == "credentials." ++ key) = true
    ∧ (translate_provider_credentials d).1.result.find? "env_mapping" = none
    ∧ (translate_provider_credentials d).1.ok = false := by
  have hany := credLoop_missing (pyLower (pyStrip (pyStr (d.getD "provider" (Json.str "")))))
    (d.getv "credentials") req.2 req.1 key hkey hfalsy
  refine ⟨?_, ?_, ?_⟩ <;>
    simp only [translate_provider_credentials, hp, hd, Option.isSome_some,
      eq_self_iff_true, if_true, if_false, List.append_nil, List.nil_append,
      List.isEmpty_nil] <;>
    [exact (emit_any _ _ _ _ _ _ hany).1;
     (rw [(emit_any _ _ _ _ _ _ hany).2.2]; simp [Json.find?, lookupField]);
     exact (emit_any _ _ _ _ _ _ hany).2.1]

/-- The C9 witness input: `google` with an empty-string `client_id`. -/
def c9Input : Json :=
  Json.obj [("provider", Json.str "google"),
            ("credentials", Json.obj [("client_id", Json.str ""),
              ("client_secret", Json.str "x")])]

theorem c9_witness :
    (translate_provider_credentials c9Input).1.errors.any
      (fun e => e.code == "MISSING_CREDENTIAL" && e.path == "credentials." ++ "client_id") = true
    ∧ (translate_provider_credentials c9Input).1.result.find? "env_mapping" = none
    ∧ (translate_provider_credentials c9Input).1.ok = false :=
  c9_falsy_credential c9Input
    (["client_id", "client_secret"],
     [("client_id", "GOOGLE_CLIENT_ID"), ("client_secret", "GOOGLE_CLIENT_SECRET")])
    "client_id" rfl rfl (by simp) rfl rfl

/-! ### C10 -/

theorem all_filterMap {α : Type} (p : Err → Bool) (xs : List α) (f : α → Option Err)
    (hf : ∀ x ∈ xs, ∀ e, f x = some e → p e = true) :
    (xs.filterMap f).all p = true := by
  rw [List.all_eq_true]
  intro e he
  rcases List.mem_filterMap.mp he with ⟨x, hx, hfx⟩
  exact hf x hx e hfx

theorem filterMap_guard_none {e : Err} (c : Prop) [Decidable c] (hc : c) (x : Err)
    (hfe : (if c then none else some x) = some e) : False := by
  simp [hc] at hfe

theorem filterMap_guard_mem {e : Err} (c : Prop) [Decidable c] (x : Err)
    (hfe : (if c then none else some x) = some e) : e = x := by
  by_cases hc : c
  · simp [hc] at hfe
  · simp [hc] at hfe
    exact hfe.symm

theorem filterMap_guard2_mem {e : Err} (c : Prop) [Decidable c] (x : Err)
    (hfe : (if c then some x else none) = some e) : e = x := by
  by_cases hc : c
  · simp [hc] at hfe
    exact hfe.symm
  · simp [hc] at hfe

theorem emptySummaryErrs_of_not_str (v : Json) (hns : v.isStr = false) :
    emptySummaryErrs v = [] := by
  cases v <;> first
    | rfl
    | simp [Json.isStr] at hns

theorem vr_path_ne_summary (s : String) :
    (("machine_json.validation_results[" ++ s ++ "]") == "summary") = false := by
  rw [beq_eq_false_iff_ne]
  intro h
  have h2 := congrArg String.length h
  rw [String.length_append, String.length_append] at h2
  have e1 : ("machine_json.validation_results[" : String).length = 32 := rfl
  have e2 : ("]" : String).length = 1 := rfl
  have e3 : ("summary" : String).length = 7 := rfl
  rw [e1, e2, e3] at h2
  omega

theorem validationResultsErrs_all (r : Json) :
    (validationResultsErrs r).all (fun e => !(e.path == "summary")) = true := by
  cases r with
  | arr items =>
    simp only [validationResultsErrs]
    apply all_filterMap
    intro q hq e hfe
    by_cases h1 : (!q.2.isDict) = true
    · rw [if_pos h1] at hfe
      have := Option.some.inj hfe
      subst this
      simp [err, vr_path_ne_summary]
    · rw [if_neg (by simpa using h1)] at hfe
      have := filterMap_guard2_mem _ _ hfe
      subst this
      simp [err, vr_path_ne_summary]
  | null => rfl
  | bool b => rfl
  | int n => rfl
  | str s => rfl
  | obj kvs => rfl

/-- The C10 witness input: a non-string `summary` with every other check
passing. -/
def c10Input : Json :=
  Json.obj [("summary", Json.int 5), ("artifacts", Json.arr []),
            ("next_actions", Json.arr []),
            ("machine_json", Json.obj [("decisions", Json.arr []), ("risks", Json.arr []),
              ("required_inputs", Json.arr []), ("validation_results", Json.arr [])])]

/-- C10: for `validate-output-schema`, the `EMPTY_SUMMARY` check applies
only to string summaries: a present non-string `summary` produces no
error whose path is `summary`, and such an input can still pass overall
(`c10Input` yields `ok: true`). -/
theorem c10_nonstring_summary (d v : Json)
    (hs : d.find? "summary" = some v) (hns : v.isStr = false) :
    (validate_output_schema d).1.errors.all (fun e => !(e.path == "summary")) = true
    ∧ (validate_output_schema c10Input).1.ok = true := by
  have hgv : d.getv "summary" = v := by
    simp [Json.getv, Json.getD, hs]
  have hhk : d.hasKey "summary" = true := by
    simp [Json.hasKey, hs]
  constructor
  · simp only [validate_output_schema, hgv, emptySummaryErrs_of_not_str v hns]
    apply emit_all
    simp only [List.all_append, Bool.and_eq_true, List.append_nil]
    refine ⟨⟨⟨⟨?_, ?_⟩, ?_⟩, ?_⟩, ?_⟩
    · apply all_filterMap
      intro k hk e hfe
      simp only [REQUIRED_ROOT, List.mem_cons, List.not_mem_nil, or_false] at hk
      rcases hk with rfl | rfl | rfl | rfl
      · exact absurd hhk (fun hh => filterMap_guard_none _ hh _ hfe)
      · have := filterMap_guard_mem _ _ hfe
        subst this
        rfl
      · have := filterMap_guard_mem _ _ hfe
        subst this
        rfl
      · have := filterMap_guard_mem _ _ hfe
        subst this
        rfl
    · split <;> rfl
    · apply all_filterMap
      intro k hk e hfe
      simp only [REQUIRED_MACHINE, List.mem_cons, List.not_mem_nil, or_false] at hk
      rcases hk with rfl | rfl | rfl | rfl <;>
        · have := filterMap_guard_mem _ _ hfe
          subst this
          rfl
    · apply all_filterMap
      intro k hk e hfe
      simp only [List.mem_cons, List.not_mem_nil, or_false] at hk
      rcases hk with rfl | rfl <;>
        · have := filterMap_guard2_mem _ _ hfe
          subst this
          rfl
    · apply validationResultsErrs_all
  · rfl

theorem c10_witness :
    (validate_output_schema c10Input).1.errors.all (fun e => !(e.path == "summary")) = true
    ∧ (validate_output_schema c10Input).1.ok = true :=
  c10_nonstring_summary c10Input (Json.int 5) rfl rfl
